import Mathlib

/-!
Shallow embedding of the core of the demonized-orb-optimizer web frontend:
the orb import normalizer (src/web/src/components/orbs/OrbDisplay.tsx,
OrbsEditor.tsx), the rarity level caps (src/lib/rarityCaps),
the solver result normalizer (src/web/src/lib/resultParser.ts),
the template engine (src/lib/applyTemplate.ts, priorityTemplates.tsx) and
the profile category propagation (ProfilesEditor.tsx).

JavaScript runtime values reaching these functions are modelled by `JVal`;
JavaScript numbers (which include NaN and the infinities) by `JSNum` with
finite values as rationals.  Decimal rendering of non-integer numbers and
exponent/hex numeric-string forms are approximated; no verified property
depends on them.
-/

/-- A JavaScript number: a finite value (as a rational), NaN, or ±Infinity. -/
inductive JSNum where
  | fin (q : ℚ)
  | nan
  | posInf
  | negInf
deriving DecidableEq, Repr

/-- Number.isFinite. -/
def JSNum.isFinite : JSNum → Bool
  | .fin _ => true
  | _ => false

/-- A JavaScript value as it can reach the normalizers (absence of an object
property is modelled by `Option.none` at use sites). -/
inductive JVal where
  | null
  | bool (b : Bool)
  | num (n : JSNum)
  | str (s : String)
  | arr (xs : List JVal)
  | obj (fields : List (String × JVal))

/-- First-match association-list lookup (JS own-property lookup; real JS
objects never carry duplicate keys). -/
def alookup {α : Type} : List (String × α) → String → Option α
  | [], _ => none
  | (k', v) :: rest, k => if k' = k then some v else alookup rest k

/-- Digit-string value. -/
def digitsToNat (cs : List Char) : ℕ :=
  cs.foldl (fun a c => a * 10 + (c.toNat - 48)) 0

/-- Is `k` the canonical decimal form of an array index (as JS requires for
array element access by string key): digits only, no leading zero. -/
def isCanonicalIndex (k : String) : Bool :=
  k = "0" ∨ (k.data ≠ [] ∧ k.data.all Char.isDigit ∧ k.data.head? ≠ some '0')

/-- Property access `v[k]` (undefined is `none`).  On arrays a canonical
numeric string indexes the element, as in JS. -/
def jget : JVal → String → Option JVal
  | .obj fs, k => alookup fs k
  | .arr xs, k => if isCanonicalIndex k then xs.get? (digitsToNat k.data) else none
  | _, _ => none

/-- The JS nullish-coalescing operator `a ?? b` where `a` is a possibly
undefined property. -/
def jcoalesce : Option JVal → JVal → JVal
  | none, b => b
  | some .null, b => b
  | some v, _ => v

/-- JS truthiness. -/
def jtruthy : JVal → Bool
  | .null => false
  | .bool b => b
  | .num (.fin q) => decide (q ≠ 0)
  | .num .nan => false
  | .num _ => true
  | .str s => decide (s ≠ "")
  | .arr _ => true
  | .obj _ => true

/-- String.prototype.trim, implemented over the character list (JS trims
Unicode whitespace; `Char.isWhitespace` plays that role here). -/
def jsTrim (s : String) : String :=
  ⟨((s.data.dropWhile Char.isWhitespace).reverse.dropWhile Char.isWhitespace).reverse⟩

/-- Number(string): trimmed empty string is 0, `Infinity` forms are the
infinities, plain decimal forms parse, anything else is NaN (exponent and
hex forms are approximated as NaN; nothing verified depends on them). -/
def parseNum (s : String) : JSNum :=
  match (jsTrim s).data with
  | [] => .fin 0
  | c :: cs =>
    let sgn : ℚ := if c = '-' then -1 else 1
    let body : List Char := if c = '-' ∨ c = '+' then cs else c :: cs
    if body = "Infinity".data then (if sgn = 1 then JSNum.posInf else JSNum.negInf)
    else
      let intPart := body.takeWhile (· ≠ '.')
      let rest := body.dropWhile (· ≠ '.')
      match rest with
      | [] =>
        if intPart ≠ [] ∧ intPart.all Char.isDigit then .fin (sgn * digitsToNat intPart)
        else .nan
      | _ :: frac =>
        if (intPart ≠ [] ∨ frac ≠ []) ∧ intPart.all Char.isDigit ∧ frac.all Char.isDigit
          ∧ ¬ frac.contains '.' then
          .fin (sgn * ((digitsToNat intPart : ℚ) + (digitsToNat frac : ℚ) / (10 ^ frac.length)))
        else .nan

/-- Decimal rendering of a JS number; non-integral rationals are approximated
by a fraction rendering (no verified property evaluates this case). -/
def jsNumToString : JSNum → String
  | .nan => "NaN"
  | .posInf => "Infinity"
  | .negInf => "-Infinity"
  | .fin q => if q.den = 1 then toString q.num else toString q.num ++ "/" ++ toString q.den

mutual

/-- String(v). -/
def jsToString : JVal → String
  | .null => "null"
  | .bool b => cond b "true" "false"
  | .num n => jsNumToString n
  | .str s => s
  | .arr xs => String.intercalate "," (jsArrParts xs)
  | .obj _ => "[object Object]"

/-- Array join parts: null (and undefined) render as the empty string. -/
def jsArrParts : List JVal → List String
  | [] => []
  | JVal.null :: xs => "" :: jsArrParts xs
  | x :: xs => jsToString x :: jsArrParts xs

end

/-- Number(v). -/
def jsToNumber : JVal → JSNum
  | .null => .fin 0
  | .bool b => .fin (cond b 1 0)
  | .num n => n
  | .str s => parseNum s
  | .arr xs => parseNum (jsToString (.arr xs))
  | .obj _ => .nan

/-- Number applied to a possibly undefined value: Number(undefined) is NaN. -/
def jsToNumberOpt : Option JVal → JSNum
  | none => .nan
  | some v => jsToNumber v

/-- An orb record (src/web/src/lib/types.ts `OrbIn`); JS numbers reaching
`value`/`level` are always finite by construction in the normalizers, so
they are carried as rationals. -/
structure OrbIn where
  type : String
  set : String
  rarity : String
  value : ℚ
  level : ℚ
deriving DecidableEq, Repr

/-- The `clamp` helper of OrbDisplay.tsx: `Math.max(min, Math.min(max, n))`. -/
def jsClamp (n lo hi : ℚ) : ℚ := max lo (min hi n)

/-- Trimmed stringification of the `type` property as computed by
`normalizeOrb`: `String(raw?.type ?? "").trim()`. -/
def importTypeOf (raw : JVal) : String :=
  jsTrim (jsToString (jcoalesce (jget raw "type") (.str "")))

/-- Trimmed stringification of the `set` property as computed by
`normalizeOrb`: `String(raw?.set ?? raw?.set ?? "").trim()` (the source
repeats the same property in the coalescing chain). -/
def importSetOf (raw : JVal) : String :=
  jsTrim (jsToString (jcoalesce (jget raw "set") (jcoalesce (jget raw "set") (.str ""))))

/-- Trimmed stringification of the `rarity` property as computed by
`normalizeOrb`: `String(raw?.rarity ?? "Rare").trim()`. -/
def importRarityOf (raw : JVal) : String :=
  jsTrim (jsToString (jcoalesce (jget raw "rarity") (.str "Rare")))

/-- `normalizeOrb` from src/web/src/components/orbs/OrbDisplay.tsx: the
per-item normalizer of the bulk orb import.  Returns `none` (item dropped)
when the trimmed type or the trimmed set is empty; clamps `value` to ≥ 0 and
`level` into the flat range 0..9. -/
def normalizeOrb (raw : JVal) : Option OrbIn :=
  let type := importTypeOf raw
  let set := importSetOf raw
  let rarity := importRarityOf raw
  let valueNum := jsToNumber (jcoalesce (jget raw "value") (.num (.fin 0)))
  let levelNum := jsToNumber (jcoalesce (jget raw "level") (.num (.fin 0)))
  if type = "" ∨ set = "" then none
  else
    some
      { type := type
        set := set
        rarity := rarity
        value := match valueNum with | .fin q => max 0 q | _ => 0
        level := match levelNum with | .fin q => jsClamp q 0 9 | _ => jsClamp 0 0 9 }

/-- The parsing body of `parseAndReplaceFromText` in
src/web/src/components/orbs/OrbsEditor.tsx, applied to already-parsed JSON:
accepts a bare array or an object with an `orbs` array, filters items
through `normalizeOrb`, and rejects the import when nothing survives. -/
def importOrbs (data : JVal) : Except String (List OrbIn) :=
  let arrOpt : Option (List JVal) :=
    match data with
    | .arr xs => some xs
    | _ =>
      if jtruthy data then
        match jget data "orbs" with
        | some (.arr ys) => some ys
        | _ => none
      else none
  match arrOpt with
  | none => .error "JSON must be an array of orbs or an object with { orbs: [...] }"
  | some arr =>
    let normalized := arr.filterMap normalizeOrb
    if normalized.isEmpty then .error "No valid orbs found in the JSON."
    else .ok normalized

/-- `RARITY_LEVEL_CAP` from src/lib/rarityCaps. -/
def RARITY_LEVEL_CAP : List (String × ℚ) :=
  [("Common", 3), ("Magic", 3), ("Rare", 6), ("Epic", 6), ("Legendary", 9), ("Mythic", 9)]

/-- `clampLevel` from src/lib/rarityCaps: per-rarity level cap with default 9;
NaN maps to 0; the level is floored before clamping.  The infinite cases
record what `Math.floor`/`min`/`max` do there. -/
def clampLevel (rarity : String) (level : JSNum) : ℚ :=
  let mx := (alookup RARITY_LEVEL_CAP rarity).getD 9
  match level with
  | .nan => 0
  | .fin q => min (max 0 ((⌊q⌋ : ℤ) : ℚ)) mx
  | .posInf => mx
  | .negInf => min 0 mx

/-- One output profile of the result normalizer
(src/web/src/lib/resultParser.ts `ParsedProfile`); `null` scores are `none`
and the `assignments` record keeps JS insertion order as a list of pairs. -/
structure ParsedProfile where
  name : String
  score : Option JSNum
  set_score : Option JSNum
  orb_score : Option JSNum
  assignments : List (String × List OrbIn)
deriving DecidableEq, Repr

/-- The normalizer output (src/web/src/lib/resultParser.ts `ParsedResult`). -/
structure ParsedResult where
  combined_score : Option JSNum
  profiles : List ParsedProfile
deriving DecidableEq, Repr

/-- `toOrbIn` from src/web/src/lib/resultParser.ts: lenient per-orb coercion
used by every branch of the result normalizer.  No range or enum checks. -/
def toOrbIn (raw : JVal) : OrbIn :=
  let type := jsTrim (jsToString (jcoalesce (jget raw "type") (.str "")))
  let set := jsTrim (jsToString (jcoalesce (jget raw "set") (jcoalesce (jget raw "set_name") (.str ""))))
  let rarity := jsTrim (jsToString (jcoalesce (jget raw "rarity") (.str "Rare")))
  { type := if type = "" then "Unknown" else type
    set := if set = "" then "Unknown" else set
    rarity := if rarity = "" then "Rare" else rarity
    value := match jsToNumberOpt (jget raw "value") with | .fin q => q | _ => 0
    level := match jsToNumberOpt (jget raw "level") with | .fin q => q | _ => 0 }

/-- Field coercion `typeof v[k] === "number" ? v[k] : null` used for all
score fields of the result normalizer. -/
def jnumField (v : JVal) (k : String) : Option JSNum :=
  match jget v k with
  | some (.num x) => some x
  | _ => none

/-- The guard `x && typeof x === "object"`: keeps objects and arrays
(both truthy, both of JS type "object"), rejects everything else. -/
def jobjLike : Option JVal → Option JVal
  | some (JVal.obj fs) => some (.obj fs)
  | some (JVal.arr xs) => some (.arr xs)
  | _ => none

/-- Object.entries for the object-like values the normalizer walks:
an object's own fields in insertion order, an array's elements keyed by
their decimal indices. -/
def jentries : JVal → List (String × JVal)
  | .obj fs => fs
  | .arr xs => xs.enum.map (fun iv => (toString iv.1, iv.2))
  | _ => []

/-- Category value coercion `Array.isArray(arr) ? arr.map(toOrbIn) : []`. -/
def orbListOf : JVal → List OrbIn
  | .arr xs => xs.map toOrbIn
  | _ => []

/-- Walk an assignments/loadout object key by key. -/
def assignmentsOf (v : JVal) : List (String × List OrbIn) :=
  (jentries v).map (fun kv => (kv.1, orbListOf kv.2))

/-- One element of the canonical `raw.profiles` array
(resultParser.ts, canonical branch). -/
def parseCanonicalProfile (p : JVal) : ParsedProfile :=
  { name := jsToString (jcoalesce (jget p "name") (.str ""))
    score := jnumField p "score"
    set_score := jnumField p "set_score"
    orb_score := jnumField p "orb_score"
    assignments := assignmentsOf ((jobjLike (jget p "assignments")).getD (.obj [])) }

/-- One entry of legacy shape A (`raw.assign` keyed by profile name, score
metadata looked up in the separately keyed `raw.profiles` object); `meta`
falls back to `{}` when the lookup is falsy (`scores[name] || {}`). -/
def parseAssignProfile (scores : JVal) (name : String) (catMap : JVal) : ParsedProfile :=
  let assignments :=
    match catMap with
    | .obj _ => assignmentsOf catMap
    | .arr _ => assignmentsOf catMap
    | _ => []
  let meta :=
    match jget scores name with
    | some v => if jtruthy v then v else .obj []
    | none => .obj []
  { name := name
    score := jnumField meta "score"
    set_score := jnumField meta "set_score"
    orb_score := jnumField meta "orb_score"
    assignments := assignments }

/-- One entry of legacy shape B (`raw.profiles` as an object whose values
carry scores plus a `loadout` playing the role of `assignments`). -/
def parseLoadoutProfile (name : String) (meta : JVal) : ParsedProfile :=
  { name := name
    score := jnumField meta "score"
    set_score := jnumField meta "set_score"
    orb_score := jnumField meta "orb_score"
    assignments := assignmentsOf ((jobjLike (jget meta "loadout")).getD (.obj [])) }

/-- The branch dispatch of `parseResultsFromRaw`, producing the output
profile list: canonical array first, then legacy `assign`, then legacy
object `profiles`, else no match. -/
def parsedProfilesOf (raw : JVal) : Option (List ParsedProfile) :=
  match jget raw "profiles" with
  | some (.arr ps) => some (ps.map parseCanonicalProfile)
  | profilesVal =>
    match jobjLike (jget raw "assign") with
    | some assignVal =>
      some ((jentries assignVal).map
        (fun kv => parseAssignProfile ((jobjLike profilesVal).getD (.obj [])) kv.1 kv.2))
    | none =>
      match jobjLike profilesVal with
      | some profObj =>
        some ((jentries profObj).map (fun kv => parseLoadoutProfile kv.1 kv.2))
      | none => none

/-- `parseResultsFromRaw` from src/web/src/lib/resultParser.ts: every
successful branch pairs its profile list with the same
`typeof raw.combined_score === "number"` coercion; the top guard
`!raw || typeof raw !== "object"` admits exactly objects and arrays. -/
def parseResultsFromRaw (raw : JVal) : Option ParsedResult :=
  match raw with
  | .obj _ =>
    (parsedProfilesOf raw).map
      (fun ps => { combined_score := jnumField raw "combined_score", profiles := ps })
  | .arr _ =>
    (parsedProfilesOf raw).map
      (fun ps => { combined_score := jnumField raw "combined_score", profiles := ps })
  | _ => none

/-- A profile (src/web/src/lib/types.ts `OptimizeProfileIn` as used by the
profiles editor and the template engine); record fields keep JS insertion
order as association lists. -/
structure OptimizeProfileIn where
  name : String
  weight : ℚ
  objective : String
  power : ℚ
  epsilon : ℚ
  set_priority : List (String × ℚ)
  orb_weights : List (String × ℚ)
  orb_level_weights : List (String × ℚ)
  categories : List (String × String)
deriving DecidableEq, Repr

/-- A template (src/web/src/lib/priorityTemplates.tsx `PriorityTemplate`):
everything beyond id/label/description is optional. -/
structure PriorityTemplate where
  id : String
  label : String
  description : Option String
  objective : Option String
  power : Option ℚ
  epsilon : Option ℚ
  categories : Option (List (String × String))
  set_priority : Option (List (String × ℚ))
  orb_weights : Option (List (String × ℚ))
  orb_level_weights : Option (List (String × ℚ))
deriving DecidableEq, Repr

/-- `PROFILE_DEFAULTS` from src/web/src/lib/priorityTemplates.tsx. -/
def PROFILE_DEFAULTS : OptimizeProfileIn :=
  { name := "New Profile"
    weight := 1
    objective := "sets-first"
    power := 2
    epsilon := 0.02
    categories := []
    set_priority := []
    orb_weights := []
    orb_level_weights := [] }

/-- `applyTemplateToProfile` from src/lib/applyTemplate.ts: reset to the
baseline, keep the profile's name/weight and carry over its power/epsilon,
then let template fields win where present (`??` for the primitives, object
truthiness for the maps — a present map, even empty, is an object and wins). -/
def applyTemplateToProfile (profile : OptimizeProfileIn) (tpl : PriorityTemplate)
    (base : OptimizeProfileIn) : OptimizeProfileIn :=
  let reset : OptimizeProfileIn :=
    { base with
      name := profile.name
      weight := profile.weight
      power := profile.power
      epsilon := profile.epsilon }
  { reset with
    objective := tpl.objective.getD reset.objective
    power := tpl.power.getD reset.power
    epsilon := tpl.epsilon.getD reset.epsilon
    categories := tpl.categories.getD reset.categories
    set_priority := tpl.set_priority.getD reset.set_priority
    orb_weights := tpl.orb_weights.getD reset.orb_weights
    orb_level_weights := tpl.orb_level_weights.getD reset.orb_level_weights }

/-- JS `{ ...m, [k]: v }` on a duplicate-free record: replace in place when
the key exists, else append at the end. -/
def setKey : List (String × String) → String → String → List (String × String)
  | [], k, v => [(k, v)]
  | (k', v') :: rest, k, v =>
    if k' = k then (k, v) :: rest else (k', v') :: setKey rest k v

/-- JS `delete m[k]` on a duplicate-free record. -/
def delKey : List (String × String) → String → List (String × String)
  | [], _ => []
  | (k', v') :: rest, k => if k' = k then delKey rest k else (k', v') :: delKey rest k

/-- The category update done to one profile by `handleSetCategory`
(ProfilesEditor.tsx): the empty string is the clear sentinel
(`if (!rarity) delete cats[cat]; else cats[cat] = rarity`). -/
def applyCat (rarity cat : String) (p : OptimizeProfileIn) : OptimizeProfileIn :=
  { p with categories := if rarity = "" then delKey p.categories cat
                         else setKey p.categories cat rarity }

/-- Index-passing map, modelling `Array.prototype.map`'s `(p, idx)` callback
and the indexed for-loop of `handleSetCategory`. -/
def mapIdxFrom {α : Type} (f : ℕ → α → α) : ℕ → List α → List α
  | _, [] => []
  | n, x :: xs => f n x :: mapIdxFrom f (n + 1) xs

/-- `handleSetCategory` from src/web/src/components/profiles/ProfilesEditor.tsx:
update the target profile, then, if the category is shareable, propagate the
same deletion/assignment to every other profile in the same update. -/
def handleSetCategory (profiles : List OptimizeProfileIn) (shareable : List String)
    (pIndex : ℕ) (cat : String) (rarity : String) : List OptimizeProfileIn :=
  let next := mapIdxFrom (fun idx p => if idx ≠ pIndex then p else applyCat rarity cat p) 0 profiles
  if cat ∈ shareable then
    mapIdxFrom (fun i p => if i = pIndex then p else applyCat rarity cat p) 0 next
  else next

/-- A concrete profile used by the witnesses (its numeric fields are chosen
integral so that the kernel can evaluate equality). -/
def demoProfile (nm : String) (cats : List (String × String)) : OptimizeProfileIn :=
  { name := nm
    weight := 1
    objective := "sets-first"
    power := 2
    epsilon := 0
    set_priority := []
    orb_weights := []
    orb_level_weights := []
    categories := cats }

/-- A template defining nothing beyond its identity, used by the witnesses. -/
def demoTemplate : PriorityTemplate :=
  { id := "t"
    label := "t"
    description := none
    objective := none
    power := none
    epsilon := none
    categories := none
    set_priority := none
    orb_weights := none
    orb_level_weights := none }

example : jsToNumber (.str "abc") = .nan := by decide
example : jsTrim "  X " = "X" := by decide
example : jget (.arr [.str "a", .str "b"]) "1" = some (.str "b") := rfl
example : jget (.arr [.str "a", .str "b"]) "01" = none := rfl

theorem alookup_setKey (m : List (String × String)) (k v : String) :
    alookup (setKey m k v) k = some v := by
  induction m with
  | nil => simp [setKey, alookup]
  | cons kv rest ih =>
    by_cases h : kv.1 = k
    · simp [setKey, alookup, h]
    · simp [setKey, alookup, h, ih]

theorem alookup_delKey (m : List (String × String)) (k : String) :
    alookup (delKey m k) k = none := by
  induction m with
  | nil => simp [delKey, alookup]
  | cons kv rest ih =>
    by_cases h : kv.1 = k
    · simp [delKey, h, ih]
    · simp [delKey, alookup, h, ih]

theorem get?_mapIdxFrom {α : Type} (f : ℕ → α → α) (n : ℕ) (l : List α) (j : ℕ) :
    (mapIdxFrom f n l).get? j = (l.get? j).map (f (n + j)) := by
  induction l generalizing n j with
  | nil => simp [mapIdxFrom]
  | cons x xs ih =>
    cases j with
    | zero => simp [mapIdxFrom]
    | succ j' =>
      have h : n + (j' + 1) = n + 1 + j' := by omega
      simp only [mapIdxFrom, List.get?_cons_succ, ih (n + 1) j', h]

theorem alookup_applyCat (r cat : String) (p : OptimizeProfileIn) :
    alookup (applyCat r cat p).categories cat = if r = "" then none else some r := by
  by_cases h : r = ""
  · simp [applyCat, h, alookup_delKey]
  · simp [applyCat, h, alookup_setKey]

theorem handleSetCategory_get?_shareable (profiles : List OptimizeProfileIn)
    (shareable : List String) (i : ℕ) (cat r : String) (j : ℕ) (hs : cat ∈ shareable) :
    (handleSetCategory profiles shareable i cat r).get? j =
      (profiles.get? j).map (applyCat r cat) := by
  unfold handleSetCategory
  simp only [if_pos hs, get?_mapIdxFrom, Nat.zero_add]
  cases hq : profiles.get? j with
  | none => simp
  | some p =>
    by_cases hij : j = i
    · simp [hij]
    · simp [hij]

theorem mem_iff_some_get? {α : Type} (a : α) (l : List α) :
    a ∈ l ↔ ∃ n, l.get? n = some a := by
  induction l with
  | nil => simp
  | cons x xs ih =>
    constructor
    · intro h
      rcases List.mem_cons.mp h with h | h
      · exact ⟨0, by simp [h]⟩
      · obtain ⟨n, hn⟩ := ih.mp h
        exact ⟨n + 1, by simpa using hn⟩
    · rintro ⟨n, hn⟩
      cases n with
      | zero => simp at hn; simp [hn]
      | succ n' =>
        simp only [List.get?_cons_succ] at hn
        exact List.mem_cons_of_mem _ (ih.mpr ⟨n', hn⟩)

/-- C1: after `handleSetCategory i cat r` with `cat` shareable, every profile
in the resulting list maps `cat` to `r` in its categories when `r` is a
rarity, and has no `cat` key at all when `r` is the clear sentinel `""`. -/
theorem setCategory_shareable_propagates (profiles : List OptimizeProfileIn)
    (shareable : List String) (i : ℕ) (cat r : String) (hs : cat ∈ shareable) :
    ∀ p' ∈ handleSetCategory profiles shareable i cat r,
      (r ≠ "" → alookup p'.categories cat = some r) ∧
      (r = "" → alookup p'.categories cat = none) := by
  intro p' hp'
  obtain ⟨j, hj⟩ := (mem_iff_some_get? p' _).mp hp'
  rw [handleSetCategory_get?_shareable profiles shareable i cat r j hs] at hj
  cases hq : profiles.get? j with
  | none => rw [hq] at hj; simp at hj
  | some p =>
    rw [hq] at hj
    simp only [Option.map_some'] at hj
    injection hj with hj
    subst hj
    constructor
    · intro hr
      rw [alookup_applyCat, if_neg hr]
    · intro hr
      rw [alookup_applyCat, if_pos hr]

/-- C1 witness: with two profiles and the shareable category `Soul`, setting
it to `Epic` on profile 0 makes the propagated second profile carry
`Soul ↦ Epic` as well. -/
theorem setCategory_shareable_propagates_witness :
    alookup (applyCat "Epic" "Soul" (demoProfile "B" [("Soul", "Rare")])).categories
      "Soul" = some "Epic" :=
  (setCategory_shareable_propagates
    [demoProfile "A" [], demoProfile "B" [("Soul", "Rare")]]
    ["Soul"] 0 "Soul" "Epic" (by decide)
    (applyCat "Epic" "Soul" (demoProfile "B" [("Soul", "Rare")]))
    (by decide)).1 (by decide)

/-- C8: if `cat` is not shareable, `handleSetCategory i cat r` leaves every
profile other than index `i` structurally unchanged. -/
theorem setCategory_nonshareable_isolated (profiles : List OptimizeProfileIn)
    (shareable : List String) (i : ℕ) (cat r : String) (j : ℕ)
    (hs : cat ∉ shareable) (hij : j ≠ i) :
    (handleSetCategory profiles shareable i cat r).get? j = profiles.get? j := by
  unfold handleSetCategory
  simp only [if_neg hs, get?_mapIdxFrom, Nat.zero_add]
  cases profiles.get? j with
  | none => simp
  | some p => simp [hij]

/-- C8 witness: a non-shareable update at index 0 leaves the profile at
index 1 exactly as it was. -/
theorem setCategory_nonshareable_isolated_witness :
    (handleSetCategory
      [demoProfile "A" [], demoProfile "B" [("Wings", "Rare")]]
      ["Soul"] 0 "Wings" "Epic").get? 1 =
    some (demoProfile "B" [("Wings", "Rare")]) := by
  rw [setCategory_nonshareable_isolated _ _ _ _ _ _ (by decide) (by decide)]
  decide

/-- C4: template application is idempotent in every template-governed field
(objective, power, epsilon, categories, set_priority, orb_weights,
orb_level_weights); applying the template to its own output changes none of
them.  Purity holds by construction: the embedded function, like the source
(which only builds new objects with spread), computes a new profile from its
arguments. -/
theorem applyTemplate_idempotent (p : OptimizeProfileIn) (tpl : PriorityTemplate)
    (base : OptimizeProfileIn) :
    (applyTemplateToProfile (applyTemplateToProfile p tpl base) tpl base).objective =
      (applyTemplateToProfile p tpl base).objective ∧
    (applyTemplateToProfile (applyTemplateToProfile p tpl base) tpl base).power =
      (applyTemplateToProfile p tpl base).power ∧
    (applyTemplateToProfile (applyTemplateToProfile p tpl base) tpl base).epsilon =
      (applyTemplateToProfile p tpl base).epsilon ∧
    (applyTemplateToProfile (applyTemplateToProfile p tpl base) tpl base).categories =
      (applyTemplateToProfile p tpl base).categories ∧
    (applyTemplateToProfile (applyTemplateToProfile p tpl base) tpl base).set_priority =
      (applyTemplateToProfile p tpl base).set_priority ∧
    (applyTemplateToProfile (applyTemplateToProfile p tpl base) tpl base).orb_weights =
      (applyTemplateToProfile p tpl base).orb_weights ∧
    (applyTemplateToProfile (applyTemplateToProfile p tpl base) tpl base).orb_level_weights =
      (applyTemplateToProfile p tpl base).orb_level_weights := by
  cases hp : tpl.power <;> cases he : tpl.epsilon <;>
    simp [applyTemplateToProfile, hp, he]

/-- C7: every map field the template leaves undefined comes out exactly as
the baseline's value (prior profile keys are lost); in particular with the
`PROFILE_DEFAULTS` baseline an absent `set_priority` comes out empty. -/
theorem applyTemplate_absent_resets (p : OptimizeProfileIn) (tpl : PriorityTemplate)
    (base : OptimizeProfileIn) :
    (tpl.categories = none →
      (applyTemplateToProfile p tpl base).categories = base.categories) ∧
    (tpl.set_priority = none →
      (applyTemplateToProfile p tpl base).set_priority = base.set_priority) ∧
    (tpl.orb_weights = none →
      (applyTemplateToProfile p tpl base).orb_weights = base.orb_weights) ∧
    (tpl.orb_level_weights = none →
      (applyTemplateToProfile p tpl base).orb_level_weights = base.orb_level_weights) ∧
    (tpl.set_priority = none →
      (applyTemplateToProfile p tpl PROFILE_DEFAULTS).set_priority = []) := by
  refine ⟨?_, ?_, ?_, ?_, ?_⟩ <;> intro h <;>
    simp [applyTemplateToProfile, h, PROFILE_DEFAULTS]

/-- C7 witness: a profile with `set_priority = {A: 5}` run through a template
without a `set_priority` field over the `PROFILE_DEFAULTS` baseline comes out
with an empty `set_priority`. -/
theorem applyTemplate_absent_resets_witness :
    (applyTemplateToProfile { demoProfile "P" [] with set_priority := [("A", 5)] }
      demoTemplate PROFILE_DEFAULTS).set_priority = [] :=
  (applyTemplate_absent_resets { demoProfile "P" [] with set_priority := [("A", 5)] }
    demoTemplate PROFILE_DEFAULTS).2.2.2.2 rfl

/-- C5: whenever `raw.profiles` is an array — even if legacy `assign` or
`loadout` keys are also present — the normalizer's output is exactly the
canonical branch's output: each array element through
`parseCanonicalProfile`, paired with the coerced combined score.  The legacy
branches can only be reached when `raw.profiles` is not an array. -/
theorem parseResults_canonical_priority (raw : JVal) (ps : List JVal)
    (h : jget raw "profiles" = some (.arr ps)) :
    parseResultsFromRaw raw =
      some { combined_score := jnumField raw "combined_score"
             profiles := ps.map parseCanonicalProfile } := by
  cases raw with
  | obj fs => simp [parseResultsFromRaw, parsedProfilesOf, h]
  | arr xs =>
    have hci : isCanonicalIndex "profiles" = false := by decide
    simp [jget, hci] at h
  | null => simp [jget] at h
  | bool b => simp [jget] at h
  | num n => simp [jget] at h
  | str s => simp [jget] at h

/-- C5 witness: a payload that carries both a canonical empty `profiles`
array and a legacy `assign` object parses through the canonical branch. -/
theorem parseResults_canonical_priority_witness :
    parseResultsFromRaw
      (.obj [("assign", .obj [("P", .obj [("Soul", .arr [])])]), ("profiles", .arr [])]) =
      some { combined_score := none, profiles := [] } :=
  parseResults_canonical_priority
    (.obj [("assign", .obj [("P", .obj [("Soul", .arr [])])]), ("profiles", .arr [])]) [] rfl

/-- C6: an empty object is not a structured result (`null`), while an object
whose `profiles` is the empty array is a valid canonical match yielding
`{combined_score: null, profiles: []}`. -/
theorem parseResults_empty_vs_absent :
    parseResultsFromRaw (.obj []) = none ∧
    parseResultsFromRaw (.obj [("profiles", .arr [])]) =
      some { combined_score := none, profiles := [] } := by
  exact ⟨by decide, by decide⟩

theorem parseResults_combined_eq (raw : JVal) (r : ParsedResult)
    (h : parseResultsFromRaw raw = some r) :
    r.combined_score = jnumField raw "combined_score" := by
  have hgo : parseResultsFromRaw raw = (parsedProfilesOf raw).map
      (fun ps => ({ combined_score := jnumField raw "combined_score",
                    profiles := ps } : ParsedResult)) ∨
      parseResultsFromRaw raw = none := by
    cases raw <;> simp [parseResultsFromRaw]
  rcases hgo with hg | hg
  · rw [hg] at h
    cases hps : parsedProfilesOf raw with
    | none => rw [hps] at h; simp at h
    | some ps =>
      rw [hps] at h
      simp only [Option.map_some'] at h
      injection h with h
      subst h
      rfl
  · rw [hg] at h
    simp at h

/-- C9 counterexample: an input whose `combined_score` is the non-finite
number Infinity is passed through, not mapped to null — the code's guard is
`typeof === "number"`, not finiteness. -/
theorem parseResults_combined_score_infinite_cex :
    parseResultsFromRaw (.obj [("profiles", .arr []), ("combined_score", .num .posInf)]) =
      some { combined_score := some .posInf, profiles := [] } ∧
    JSNum.posInf.isFinite = false ∧
    (some JSNum.posInf ≠ (none : Option JSNum)) := by
  exact ⟨by decide, by decide, by decide⟩

/-- C9 amended: in every successfully parsed result the output
`combined_score` equals the input `combined_score` exactly when that input
is a JS number — including the non-finite NaN and ±Infinity — and is null
for every missing or non-number input. -/
theorem parseResults_combined_score_passthrough (raw : JVal) (r : ParsedResult)
    (h : parseResultsFromRaw raw = some r) :
    (∃ x, jget raw "combined_score" = some (.num x) ∧ r.combined_score = some x) ∨
    (r.combined_score = none ∧ ∀ x, jget raw "combined_score" ≠ some (.num x)) := by
  have hc := parseResults_combined_eq raw r h
  cases hj : jget raw "combined_score" with
  | none =>
    right
    exact ⟨by rw [hc]; simp [jnumField, hj], by intro x; simp [hj]⟩
  | some v =>
    cases v with
    | num x => left; exact ⟨x, rfl, by rw [hc]; simp [jnumField, hj]⟩
    | null => right; exact ⟨by rw [hc]; simp [jnumField, hj], by intro x; simp [hj]⟩
    | bool b => right; exact ⟨by rw [hc]; simp [jnumField, hj], by intro x; simp [hj]⟩
    | str s => right; exact ⟨by rw [hc]; simp [jnumField, hj], by intro x; simp [hj]⟩
    | arr xs => right; exact ⟨by rw [hc]; simp [jnumField, hj], by intro x; simp [hj]⟩
    | obj fs => right; exact ⟨by rw [hc]; simp [jnumField, hj], by intro x; simp [hj]⟩

/-- C9 amended witness: a finite numeric `combined_score` of 7 passes
through. -/
theorem parseResults_combined_score_passthrough_witness :
    (∃ x, jget (.obj [("profiles", .arr []), ("combined_score", .num (.fin 7))])
        "combined_score" = some (.num x) ∧
      ({ combined_score := some (.fin 7), profiles := [] } : ParsedResult).combined_score =
        some x) ∨
    (({ combined_score := some (.fin 7), profiles := [] } : ParsedResult).combined_score =
        none ∧
      ∀ x, jget (.obj [("profiles", .arr []), ("combined_score", .num (.fin 7))])
        "combined_score" ≠ some (.num x)) :=
  parseResults_combined_score_passthrough
    (.obj [("profiles", .arr []), ("combined_score", .num (.fin 7))])
    { combined_score := some (.fin 7), profiles := [] } (by decide)

/-- C10: the result normalizer's per-orb coercion is a pure pass-through on
present well-formed fields, with no range or enum enforcement: finite
numeric value/level and trimmed non-empty type/set/rarity strings come out
exactly as they went in. -/
theorem toOrbIn_passthrough (raw : JVal) (t s rr : String) (v l : ℚ)
    (ht : jget raw "type" = some (.str t)) (ht2 : jsTrim t = t) (ht3 : t ≠ "")
    (hs : jget raw "set" = some (.str s)) (hs2 : jsTrim s = s) (hs3 : s ≠ "")
    (hr : jget raw "rarity" = some (.str rr)) (hr2 : jsTrim rr = rr) (hr3 : rr ≠ "")
    (hv : jget raw "value" = some (.num (.fin v)))
    (hl : jget raw "level" = some (.num (.fin l))) :
    toOrbIn raw = { type := t, set := s, rarity := rr, value := v, level := l } := by
  unfold toOrbIn
  rw [ht, hs, hr, hv, hl]
  simp [jcoalesce, jsToString, jsToNumberOpt, jsToNumber, ht2, hs2, hr2, ht3, hs3, hr3]

/-- C10 witness: a negative value, a level of 99 and the out-of-enum rarity
`Banana` all pass through the result normalizer's orb coercion untouched. -/
theorem toOrbIn_passthrough_witness :
    toOrbIn (.obj [("type", .str "T"), ("set", .str "S"), ("rarity", .str "Banana"),
        ("value", .num (.fin (-3))), ("level", .num (.fin 99))]) =
      { type := "T", set := "S", rarity := "Banana", value := -3, level := 99 } :=
  toOrbIn_passthrough
    (.obj [("type", .str "T"), ("set", .str "S"), ("rarity", .str "Banana"),
      ("value", .num (.fin (-3))), ("level", .num (.fin 99))])
    "T" "S" "Banana" (-3) 99
    rfl (by decide) (by decide)
    rfl (by decide) (by decide)
    rfl (by decide) (by decide)
    rfl rfl

/-- C2: bulk-importing `{type:"X", set:"Y", rarity:"Common", value:-5,
level:10}` does clamp the negative value to 0, but the import path clamps
the level only into the flat range 0..9, yielding level 9 — not the Common
cap 3 that the repo's own `clampLevel`/`RARITY_LEVEL_CAP` (enforced in the
edit dialog) would give. -/
theorem importOrbs_common_cap_failing :
    importOrbs (.arr [.obj [("type", .str "X"), ("set", .str "Y"), ("rarity", .str "Common"),
        ("value", .num (.fin (-5))), ("level", .num (.fin 10))]]) =
      .ok [{ type := "X", set := "Y", rarity := "Common", value := 0, level := 9 }] ∧
    clampLevel "Common" (.fin 10) = 3 := by
  exact ⟨rfl, by decide⟩

/-- C3 counterexample: an item whose trimmed type is the non-empty `"X"` but
whose set is missing is dropped by `normalizeOrb` — the claim would keep any
item with at least one of type/set present. -/
theorem normalizeOrb_drops_type_only_cex :
    normalizeOrb (.obj [("type", .str "X"), ("value", .num (.fin 1))]) = none ∧
    importTypeOf (.obj [("type", .str "X"), ("value", .num (.fin 1))]) = "X" := by
  exact ⟨by decide, by decide⟩

/-- C3 amended: an item is dropped exactly when at least one of type/set is
missing or empty after trimming; an item with both present is kept and
normalized leniently — a missing value/level defaults to 0 and a missing
rarity defaults to `"Rare"`. -/
theorem normalizeOrb_drop_characterization (raw : JVal) :
    (normalizeOrb raw = none ↔ importTypeOf raw = "" ∨ importSetOf raw = "") ∧
    (importTypeOf raw ≠ "" → importSetOf raw ≠ "" →
      jget raw "value" = none → jget raw "level" = none → jget raw "rarity" = none →
      normalizeOrb raw = some { type := importTypeOf raw, set := importSetOf raw,
                                rarity := "Rare", value := 0, level := 0 }) := by
  constructor
  · unfold normalizeOrb
    by_cases h : importTypeOf raw = "" ∨ importSetOf raw = ""
    · simp [h]
    · simp [h]
  · intro h1 h2 hv hl hr
    unfold normalizeOrb
    rw [hv, hl]
    have hRare : jsTrim "Rare" = "Rare" := by decide
    simp [importRarityOf, hr, jcoalesce, jsToString, jsToNumber, jsClamp, hRare, h1, h2]

/-- C3 amended witness: an item carrying only `type` and `set` is kept with
the lenient defaults. -/
theorem normalizeOrb_drop_characterization_witness :
    normalizeOrb (.obj [("type", .str "A"), ("set", .str "B")]) =
      some { type := "A", set := "B", rarity := "Rare", value := 0, level := 0 } :=
  (normalizeOrb_drop_characterization (.obj [("type", .str "A"), ("set", .str "B")])).2
    (by decide) (by decide) rfl rfl rfl

example : parseResultsFromRaw
    (.obj [("profiles", .arr [.obj [("name", .str "P1"),
      ("assignments", .obj [("Soul", .arr [.obj [("type", .str "Flame"), ("set", .str "Lucifer"),
        ("rarity", .str "Rare"), ("value", .num (.fin 0)), ("level", .num (.fin 1))]])])]])]) =
    some { combined_score := none,
           profiles := [{ name := "P1", score := none, set_score := none, orb_score := none,
                          assignments := [("Soul",
                            [{ type := "Flame", set := "Lucifer", rarity := "Rare",
                               value := 0, level := 1 }])] }] } := by decide
